import Mathlib

/-!
Shallow embedding of the disaster-dashboard backend service layer
(`backend/services/disaster_data.py` and the aggregation endpoint of
`backend/main.py`).

Conventions of the embedding:
* Python floats are modelled as rationals (`ℚ`).
* Python dicts used as GeoJSON objects become structures; the free-form
  `properties` dict becomes an association list `Props` whose values are
  the `Value` inductive.  Python's in-place `props[k] = v` assignment is
  `setProp` (replace in place when the key exists, append otherwise),
  and `props.get(k, d)` for numeric reads is `getNumD` (the source only
  ever compares these reads numerically, so a well-typed store holds a
  `Value.num` there).
* The mutable service cache (`self.cache`) is threaded explicitly: each
  fetch operation takes the cache and the current time and returns its
  result together with the new cache state.
* Network I/O is cut at the upstream response: the seismic fetcher takes
  the outcome of the upstream HTTP request as an `Except` value (`.error`
  covers network failure, timeout, non-success status and malformed
  body, all of which raise inside the `try` block of the source).
* `datetime.strftime` formatting is abstracted as a function parameter
  `fmt : ℚ → String`; every theorem quantifies over it.
* Time is measured in minutes (`cache_duration = timedelta(minutes=5)`
  becomes the rational `5`).
-/

namespace DisasterDashboard

/-- Values stored in a feature's `properties` mapping: strings, numbers,
or lists of strings (the relief centers' `resources` entries). -/
inductive Value where
  | str : String → Value
  | num : ℚ → Value
  | listStr : List String → Value
deriving DecidableEq, Repr

/-- Truthiness of a property value, as Python evaluates it in an `if`. -/
def Value.truthy : Value → Bool
  | .str s => s ≠ ""
  | .num q => q ≠ 0
  | .listStr l => l ≠ []

/-- A feature's free-form attribute mapping (a Python dict). -/
abbrev Props := List (String × Value)

/-- Python dict assignment `props[k] = v`: replace the value in place when
the key is present (keeping insertion order), append at the end otherwise. -/
def setProp (p : Props) (k : String) (v : Value) : Props :=
  if p.any (fun e => decide (e.1 = k)) then
    p.map (fun e => if e.1 = k then (k, v) else e)
  else
    p ++ [(k, v)]

/-- Python `props.get(k)`: the stored value, or `none` when absent. -/
def lookupProp (p : Props) (k : String) : Option Value :=
  (p.find? (fun e => decide (e.1 = k))).map (fun e => e.2)

/-- Python `props.get(k, d)` at a numeric read site: the stored number when
the key holds one, the default `d` otherwise. -/
def getNumD (p : Props) (k : String) (d : ℚ) : ℚ :=
  match lookupProp p k with
  | some (.num q) => q
  | _ => d

/-- GeoJSON geometry object: a `type` tag and a coordinate list
(`[longitude, latitude]` for the points this service handles). -/
structure Geometry where
  type_ : String
  coordinates : List ℚ
deriving DecidableEq, Repr

/-- GeoJSON feature: `type` tag, geometry, properties, optional `id`. -/
structure Feature where
  type_ : String
  geometry : Geometry
  properties : Props
  id : Option String := none
deriving DecidableEq, Repr

/-- Metadata block attached by `_filter_by_country` to its output. -/
structure FilterMetadata where
  country : String
  country_code : String
  total_filtered : ℕ
deriving DecidableEq, Repr

/-- GeoJSON feature collection; `metadata` models the block the country
filter attaches (raw upstream collections carry `none`). -/
structure FeatureCollection where
  type_ : String
  features : List Feature
  metadata : Option FilterMetadata := none
deriving DecidableEq, Repr

/-- The empty `{"type": "FeatureCollection", "features": []}` document the
source returns on failures. -/
def emptyFC : FeatureCollection :=
  { type_ := "FeatureCollection", features := [] }

/-- The `Country` enum of the source. -/
inductive Country where
  | uae
  | canada
  | all
deriving DecidableEq, Repr

/-- The `.value` string of each `Country` enum member. -/
def Country.value : Country → String
  | .uae => "uae"
  | .canada => "canada"
  | .all => "all"

/-- The `CountryBounds` dataclass. -/
structure CountryBounds where
  name : String
  code : String
  min_lat : ℚ
  max_lat : ℚ
  min_lon : ℚ
  max_lon : ℚ
  center_lat : ℚ
  center_lon : ℚ
deriving DecidableEq, Repr

/-- The `COUNTRY_BOUNDS` entry for `Country.UAE`. -/
def uaeBounds : CountryBounds :=
  { name := "United Arab Emirates", code := "AE"
    min_lat := 22.5, max_lat := 26.5
    min_lon := 51.0, max_lon := 56.5
    center_lat := 24.0, center_lon := 54.0 }

/-- The `COUNTRY_BOUNDS` entry for `Country.CANADA`. -/
def canadaBounds : CountryBounds :=
  { name := "Canada", code := "CA"
    min_lat := 41.0, max_lat := 84.0
    min_lon := -141.0, max_lon := -52.0
    center_lat := 60.0, center_lon := -95.0 }

/-- The `COUNTRY_BOUNDS` table: `Country.ALL` has no entry, mirrored here
by `none`. -/
def COUNTRY_BOUNDS : Country → Option CountryBounds
  | .uae => some uaeBounds
  | .canada => some canadaBounds
  | .all => none

/-- Longitude read `coords[0]` (the `getD` default is unreachable at every
use site, which guards `2 ≤ coords.length` first). -/
def featureLon (f : Feature) : ℚ := f.geometry.coordinates.getD 0 0

/-- Latitude read `coords[1]` (same guard as `featureLon`). -/
def featureLat (f : Feature) : ℚ := f.geometry.coordinates.getD 1 0

/-- The bounding-box test of `_filter_by_country`, inclusive on all four
edges. -/
def withinBounds (b : CountryBounds) (f : Feature) : Bool :=
  decide (b.min_lat ≤ featureLat f ∧ featureLat f ≤ b.max_lat ∧
          b.min_lon ≤ featureLon f ∧ featureLon f ≤ b.max_lon)

/-- The in-place stamping `feature["properties"]["country"] = bounds.name;
feature["properties"]["country_code"] = bounds.code`. -/
def stampFeature (b : CountryBounds) (f : Feature) : Feature :=
  { f with
    properties := setProp (setProp f.properties "country" (.str b.name))
      "country_code" (.str b.code) }

/-- One iteration of the `for feature in data.get("features", [])` loop of
`_filter_by_country`: append the stamped feature when it has at least two
coordinates and lies within bounds. -/
def filterStep (b : CountryBounds) (acc : List Feature) (f : Feature) :
    List Feature :=
  if 2 ≤ f.geometry.coordinates.length then
    if withinBounds b f then acc ++ [stampFeature b f] else acc
  else acc

/-- The loop body of `_filter_by_country` as a per-feature option: `some`
of the stamped feature when retained, `none` when skipped. -/
def keepFeature (b : CountryBounds) (f : Feature) : Option Feature :=
  if 2 ≤ f.geometry.coordinates.length then
    if withinBounds b f then some (stampFeature b f) else none
  else none

/-- `DisasterDataService._filter_by_country`: identity for `ALL`, empty
collection for a country missing from the registry (unreachable for the
enum as defined), otherwise the bounding-box filter with stamping and a
metadata block. -/
def filter_by_country (data : FeatureCollection) (country : Country) :
    FeatureCollection :=
  if country = .all then data
  else
    match COUNTRY_BOUNDS country with
    | none => emptyFC
    | some bounds =>
      let filtered := data.features.foldl (filterStep bounds) []
      { type_ := "FeatureCollection"
        features := filtered
        metadata := some
          { country := bounds.name
            country_code := bounds.code
            total_filtered := filtered.length } }

/-- State of the INPUT collection object after `_filter_by_country`
returns: the Python source keeps the same feature objects in the caller's
list but stamps every retained feature's properties dict in place. -/
def filter_by_country_inputAfter (data : FeatureCollection)
    (country : Country) : FeatureCollection :=
  if country = .all then data
  else
    match COUNTRY_BOUNDS country with
    | none => data
    | some bounds =>
      { data with features := data.features.map (fun f =>
          if 2 ≤ f.geometry.coordinates.length then
            if withinBounds bounds f then stampFeature bounds f else f
          else f) }

/-- Modelled from the claim's words (C1), not from the source: keep, in
source order, exactly the features with at least two coordinate values
whose latitude lies in `[min_lat, max_lat]` and longitude in
`[min_lon, max_lon]` (both inclusive); stamp each retained feature with
the region's name and code; record name, code and retained count in the
metadata. -/
def filterByRegionClaim (c : FeatureCollection) (b : CountryBounds) :
    FeatureCollection :=
  let kept := (c.features.filter (fun f =>
      decide (2 ≤ f.geometry.coordinates.length) && withinBounds b f)).map
      (stampFeature b)
  { type_ := "FeatureCollection"
    features := kept
    metadata := some
      { country := b.name, country_code := b.code
        total_filtered := kept.length } }

/-- The severity/color classification chain at the top of
`_process_earthquake_data` (an if/elif chain setting both variables). -/
def severityColor (mag : ℚ) : String × String :=
  if mag ≥ 7.0 then ("Extreme", "darkred")
  else if mag ≥ 6.0 then ("Severe", "red")
  else if mag ≥ 5.0 then ("Strong", "orange")
  else if mag ≥ 4.0 then ("Moderate", "yellow")
  else ("Light", "green")

/-- The conditional expression `1.0 if depth < 70 else 0.8 if depth < 300
else 0.6` of `_calculate_risk_level`. -/
def depth_factor (depth : ℚ) : ℚ :=
  if depth < 70 then 1.0 else if depth < 300 then 0.8 else 0.6

/-- `DisasterDataService._calculate_risk_level`. -/
def calculate_risk_level (magnitude depth : ℚ) : String :=
  let risk_score := magnitude * depth_factor depth
  if risk_score ≥ 6.5 then "Critical"
  else if risk_score ≥ 5.5 then "High"
  else if risk_score ≥ 4.0 then "Medium"
  else "Low"

/-- The `if props.get("time"): props["formatted_time"] = ...` step of the
`_process_earthquake_data` loop: when the `time` property holds a truthy
number, stamp the formatted timestamp; a falsy (`0`) or absent value is
left alone.  (A non-numeric `time` would raise in the source and be
caught by the fetcher's exception handler; it is not formatted here
either.)  `fmt` abstracts
`datetime.fromtimestamp(·).strftime("%Y-%m-%d %H:%M:%S UTC")`. -/
def addFormattedTime (fmt : ℚ → String) (p : Props) : Props :=
  match lookupProp p "time" with
  | some (.num t) =>
    if t ≠ 0 then setProp p "formatted_time" (.str (fmt (t / 1000)))
    else p
  | _ => p

/-- Per-feature body of the `_process_earthquake_data` loop: classify by
`props.get("mag", 0)`, stamp severity, color and risk level, and add a
formatted timestamp when `props.get("time")` is truthy. -/
def processFeature (fmt : ℚ → String) (f : Feature) : Feature :=
  let mag := getNumD f.properties "mag" 0
  let sc := severityColor mag
  let p1 := setProp f.properties "severity" (.str sc.1)
  let p2 := setProp p1 "color" (.str sc.2)
  let p3 := setProp p2 "risk_level"
      (.str (calculate_risk_level mag (getNumD f.properties "depth" 0)))
  { f with properties := addFormattedTime fmt p3 }

/-- `DisasterDataService._process_earthquake_data`: enrich every feature
in place and return the same collection. -/
def process_earthquake_data (fmt : ℚ → String) (data : FeatureCollection) :
    FeatureCollection :=
  { data with features := data.features.map (processFeature fmt) }

/-- One entry of `self.cache`: the stored document and its fetch time. -/
structure CacheEntry where
  data : FeatureCollection
  timestamp : ℚ
deriving DecidableEq, Repr

/-- The service cache `self.cache`, a Python dict from key strings to
entries, modelled as an association list where the most recent binding
for a key shadows older ones. -/
abbrev Cache := List (String × CacheEntry)

/-- `self.cache_duration = timedelta(minutes=5)`, in minutes. -/
def cache_duration : ℚ := 5

/-- Dict lookup `self.cache[key]` (as an option). -/
def cacheGet (c : Cache) (k : String) : Option CacheEntry :=
  (c.find? (fun e => decide (e.1 = k))).map (fun e => e.2)

/-- Dict assignment `self.cache[key] = {"data": v, "timestamp": now}`. -/
def cachePut (c : Cache) (k : String) (v : FeatureCollection) (now : ℚ) :
    Cache :=
  (k, { data := v, timestamp := now }) :: c

/-- `DisasterDataService._is_cache_valid`: the key is present and its age
is strictly below the cache duration. -/
def is_cache_valid (c : Cache) (now : ℚ) (k : String) : Bool :=
  match cacheGet c k with
  | none => false
  | some e => decide (now - e.timestamp < cache_duration)

/-- The read `self.cache[cache_key]["data"]` on a hit (the `emptyFC`
default is unreachable behind an `is_cache_valid` guard, which implies
the key is present). -/
def cacheDataD (c : Cache) (k : String) : FeatureCollection :=
  match cacheGet c k with
  | some e => e.data
  | none => emptyFC

/-- The f-string cache key of `get_earthquakes` (numeric parameters are
rendered through `toString`; the exact rendering is irrelevant, the key
is a deterministic injection of the parameters). -/
def earthquakeCacheKey (limit : ℕ) (min_magnitude : ℚ) (country : Country) :
    String :=
  "earthquakes_" ++ toString limit ++ "_" ++ toString min_magnitude ++ "_"
    ++ country.value

/-- The post-filter truncation `filtered_data["features"][:limit]` guarded
by `len(...) > limit` in `get_earthquakes`. -/
def truncateFeatures (limit : ℕ) (fc : FeatureCollection) :
    FeatureCollection :=
  if limit < fc.features.length then
    { fc with features := fc.features.take limit }
  else fc

/-- The cache-miss `try` body of `get_earthquakes`: on upstream failure
(any exception: network error, timeout, `raise_for_status`, JSON decode)
return the empty collection and leave the cache untouched; on success
enrich, filter by country, truncate to `limit`, store in the cache and
return. -/
def get_earthquakes_fetch (cache : Cache) (now : ℚ) (fmt : ℚ → String)
    (limit : ℕ) (min_magnitude : ℚ) (country : Country)
    (upstream : Except String FeatureCollection) :
    FeatureCollection × Cache :=
  match upstream with
  | .error _ => (emptyFC, cache)
  | .ok data =>
    let processed := process_earthquake_data fmt data
    let filtered := filter_by_country processed country
    let limited := truncateFeatures limit filtered
    (limited,
      cachePut cache (earthquakeCacheKey limit min_magnitude country)
        limited now)

/-- `DisasterDataService.get_earthquakes`: serve a valid cache entry,
otherwise run the fetch body. -/
def get_earthquakes (cache : Cache) (now : ℚ) (fmt : ℚ → String)
    (limit : ℕ) (min_magnitude : ℚ) (country : Country)
    (upstream : Except String FeatureCollection) :
    FeatureCollection × Cache :=
  let cache_key := earthquakeCacheKey limit min_magnitude country
  if is_cache_valid cache now cache_key then
    (cacheDataD cache cache_key, cache)
  else
    get_earthquakes_fetch cache now fmt limit min_magnitude country upstream

/-- Point-geometry helper for the static datasets (their features are all
`{"type": "Point", "coordinates": [lon, lat]}`). -/
def pointGeom (lon lat : ℚ) : Geometry :=
  { type_ := "Point", coordinates := [lon, lat] }

/-- The static `all_wildfires` dataset of `get_wildfires`. -/
def all_wildfires : FeatureCollection :=
  { type_ := "FeatureCollection"
    features :=
      [ { type_ := "Feature"
          geometry := pointGeom 55.2708 25.2048
          properties :=
            [ ("title", .str "Al Hajar Mountains Brush Fire")
            , ("severity", .str "Low")
            , ("acres_burned", .num 120)
            , ("containment", .num 85)
            , ("color", .str "yellow")
            , ("type", .str "wildfire")
            , ("country", .str "United Arab Emirates") ] }
      , { type_ := "Feature"
          geometry := pointGeom 56.0833 24.3667
          properties :=
            [ ("title", .str "Empty Quarter Vegetation Fire")
            , ("severity", .str "Low")
            , ("acres_burned", .num 85)
            , ("containment", .num 95)
            , ("color", .str "green")
            , ("type", .str "wildfire")
            , ("country", .str "United Arab Emirates") ] }
      , { type_ := "Feature"
          geometry := pointGeom (-114.0719) 51.0447
          properties :=
            [ ("title", .str "Alberta Forest Fire")
            , ("severity", .str "High")
            , ("acres_burned", .num 45000)
            , ("containment", .num 15)
            , ("color", .str "red")
            , ("type", .str "wildfire")
            , ("country", .str "Canada") ] }
      , { type_ := "Feature"
          geometry := pointGeom (-123.1207) 49.2827
          properties :=
            [ ("title", .str "British Columbia Mountain Fire")
            , ("severity", .str "Extreme")
            , ("acres_burned", .num 78000)
            , ("containment", .num 5)
            , ("color", .str "darkred")
            , ("type", .str "wildfire")
            , ("country", .str "Canada") ] }
      , { type_ := "Feature"
          geometry := pointGeom (-106.3468) 52.1332
          properties :=
            [ ("title", .str "Saskatchewan Prairie Fire")
            , ("severity", .str "Medium")
            , ("acres_burned", .num 12000)
            , ("containment", .num 40)
            , ("color", .str "orange")
            , ("type", .str "wildfire")
            , ("country", .str "Canada") ] }
      , { type_ := "Feature"
          geometry := pointGeom (-79.3832) 43.6532
          properties :=
            [ ("title", .str "Ontario Conservation Area Fire")
            , ("severity", .str "Low")
            , ("acres_burned", .num 850)
            , ("containment", .num 75)
            , ("color", .str "yellow")
            , ("type", .str "wildfire")
            , ("country", .str "Canada") ] } ] }

/-- The static `all_alerts` dataset of `get_weather_alerts`. -/
def all_alerts : FeatureCollection :=
  { type_ := "FeatureCollection"
    features :=
      [ { type_ := "Feature"
          geometry := pointGeom 55.2708 25.2048
          properties :=
            [ ("title", .str "Dust Storm Warning - Dubai")
            , ("severity", .str "Medium")
            , ("alert_type", .str "Dust Storm")
            , ("color", .str "orange")
            , ("type", .str "weather_alert")
            , ("country", .str "United Arab Emirates") ] }
      , { type_ := "Feature"
          geometry := pointGeom 54.3773 24.4539
          properties :=
            [ ("title", .str "Extreme Heat Advisory - Abu Dhabi")
            , ("severity", .str "High")
            , ("alert_type", .str "Extreme Heat")
            , ("color", .str "red")
            , ("type", .str "weather_alert")
            , ("country", .str "United Arab Emirates") ] }
      , { type_ := "Feature"
          geometry := pointGeom (-75.6972) 45.4215
          properties :=
            [ ("title", .str "Severe Thunderstorm Watch - Ottawa")
            , ("severity", .str "Medium")
            , ("alert_type", .str "Thunderstorm")
            , ("color", .str "orange")
            , ("type", .str "weather_alert")
            , ("country", .str "Canada") ] }
      , { type_ := "Feature"
          geometry := pointGeom (-114.0719) 51.0447
          properties :=
            [ ("title", .str "Blizzard Warning - Calgary")
            , ("severity", .str "Extreme")
            , ("alert_type", .str "Blizzard")
            , ("color", .str "purple")
            , ("type", .str "weather_alert")
            , ("country", .str "Canada") ] } ] }

/-- The static `all_centers` dataset of `get_relief_centers`. -/
def all_centers : FeatureCollection :=
  { type_ := "FeatureCollection"
    features :=
      [ { type_ := "Feature"
          geometry := pointGeom 55.2708 25.2048
          properties :=
            [ ("name", .str "Dubai Emergency Response Center")
            , ("capacity", .num 300)
            , ("current_occupancy", .num 45)
            , ("resources", .listStr
                ["Medical", "Food", "Shelter", "Transportation"])
            , ("contact", .str "+971-4-123-4567")
            , ("type", .str "relief_center")
            , ("country", .str "United Arab Emirates") ] }
      , { type_ := "Feature"
          geometry := pointGeom 54.3773 24.4539
          properties :=
            [ ("name", .str "Abu Dhabi Crisis Management Center")
            , ("capacity", .num 500)
            , ("current_occupancy", .num 120)
            , ("resources", .listStr
                ["Medical", "Food", "Shelter", "Communications"])
            , ("contact", .str "+971-2-987-6543")
            , ("type", .str "relief_center")
            , ("country", .str "United Arab Emirates") ] }
      , { type_ := "Feature"
          geometry := pointGeom 56.3269 25.3382
          properties :=
            [ ("name", .str "Sharjah Emergency Services Hub")
            , ("capacity", .num 200)
            , ("current_occupancy", .num 30)
            , ("resources", .listStr ["Medical", "Food", "Shelter"])
            , ("contact", .str "+971-6-555-0123")
            , ("type", .str "relief_center")
            , ("country", .str "United Arab Emirates") ] }
      , { type_ := "Feature"
          geometry := pointGeom (-75.6972) 45.4215
          properties :=
            [ ("name", .str "Ottawa Emergency Management Center")
            , ("capacity", .num 800)
            , ("current_occupancy", .num 250)
            , ("resources", .listStr
                ["Medical", "Food", "Shelter", "Mental Health"])
            , ("contact", .str "+1-613-555-0100")
            , ("type", .str "relief_center")
            , ("country", .str "Canada") ] }
      , { type_ := "Feature"
          geometry := pointGeom (-114.0719) 51.0447
          properties :=
            [ ("name", .str "Calgary Disaster Relief Station")
            , ("capacity", .num 600)
            , ("current_occupancy", .num 180)
            , ("resources", .listStr
                ["Medical", "Food", "Shelter", "Pet Care"])
            , ("contact", .str "+1-403-555-0200")
            , ("type", .str "relief_center")
            , ("country", .str "Canada") ] }
      , { type_ := "Feature"
          geometry := pointGeom (-123.1207) 49.2827
          properties :=
            [ ("name", .str "Vancouver Emergency Response Hub")
            , ("capacity", .num 1000)
            , ("current_occupancy", .num 420)
            , ("resources", .listStr
                ["Medical", "Food", "Shelter", "Transportation",
                 "Translation"])
            , ("contact", .str "+1-604-555-0300")
            , ("type", .str "relief_center")
            , ("country", .str "Canada") ] } ] }

/-- `DisasterDataService.get_wildfires`: cache check, filter the static
dataset, store, return. -/
def get_wildfires (cache : Cache) (now : ℚ) (country : Country) :
    FeatureCollection × Cache :=
  let cache_key := "wildfires_" ++ country.value
  if is_cache_valid cache now cache_key then
    (cacheDataD cache cache_key, cache)
  else
    let filtered := filter_by_country all_wildfires country
    (filtered, cachePut cache cache_key filtered now)

/-- `DisasterDataService.get_weather_alerts`: cache check, filter the
static dataset, store, return. -/
def get_weather_alerts (cache : Cache) (now : ℚ) (country : Country) :
    FeatureCollection × Cache :=
  let cache_key := "weather_alerts_" ++ country.value
  if is_cache_valid cache now cache_key then
    (cacheDataD cache cache_key, cache)
  else
    let filtered := filter_by_country all_alerts country
    (filtered, cachePut cache cache_key filtered now)

/-- `DisasterDataService.get_relief_centers`: filter the static dataset
and return.  The cache state is threaded for uniformity with the other
fetchers; the source body never reads or writes `self.cache`. -/
def get_relief_centers (cache : Cache) (_now : ℚ) (country : Country) :
    FeatureCollection × Cache :=
  (filter_by_country all_centers country, cache)

/-- The JSON response assembled by the `/all-disasters` endpoint
(`get_all_disasters` in `backend/main.py`): the echoed country, the
resolved country name, and one entry per selected category. -/
structure AllDisastersResponse where
  country : String
  country_name : String
  categories : List (String × FeatureCollection)
deriving DecidableEq, Repr

/-- The per-task substitution of the `/all-disasters` gather loop: a task
result that is an exception is replaced by the empty collection, any
other result is passed through unchanged. -/
def resultOrEmpty (r : Except String FeatureCollection) : FeatureCollection :=
  match r with
  | .ok fc => fc
  | .error _ => emptyFC

/-- `get_all_disasters` of `backend/main.py`, after parameter validation:
the four include flags select which fetch tasks run (each task's outcome
is a parameter here, `.error` standing for a raised exception), and the
response maps each selected category name to the task's result or the
empty collection.  The country-name `match` is total; its `none` branch
is unreachable because every country other than `ALL` has bounds. -/
def get_all_disasters (country : Country)
    (include_earthquakes include_wildfires include_weather include_relief :
      Bool)
    (r_eq r_wf r_we r_rc : Except String FeatureCollection) :
    AllDisastersResponse :=
  { country := country.value
    country_name :=
      if country ≠ .all then
        match COUNTRY_BOUNDS country with
        | some b => b.name
        | none => "Global"
      else "Global"
    categories :=
      (if include_earthquakes then [("earthquakes", resultOrEmpty r_eq)]
       else []) ++
      (if include_wildfires then [("wildfires", resultOrEmpty r_wf)]
       else []) ++
      (if include_weather then [("weather_alerts", resultOrEmpty r_we)]
       else []) ++
      (if include_relief then [("relief_centers", resultOrEmpty r_rc)]
       else []) }

/-- Lookup of a category entry in an `/all-disasters` response. -/
def responseCategory (r : AllDisastersResponse) (k : String) :
    Option FeatureCollection :=
  (r.categories.find? (fun e => decide (e.1 = k))).map (fun e => e.2)

/-- The statistics dict built by `get_disaster_statistics`. -/
structure Statistics where
  country : String
  country_name : String
  total_earthquakes : ℕ
  severe_earthquakes : ℕ
  total_wildfires : ℕ
  active_weather_alerts : ℕ
  last_updated : ℚ
  avg_earthquake_magnitude : ℚ
deriving DecidableEq, Repr

/-- The statistics computation of `get_disaster_statistics`, as a function
of the three fetched collections (`last_updated` carries the computation
time in place of `datetime.now().isoformat()`). -/
def computeStatistics (country : Country) (now : ℚ)
    (earthquakes wildfires weather_alerts : FeatureCollection) :
    Statistics :=
  let mags := earthquakes.features.map
      (fun f => getNumD f.properties "mag" 0)
  { country := country.value
    country_name :=
      match COUNTRY_BOUNDS country with
      | some b => b.name
      | none => "Global"
    total_earthquakes := earthquakes.features.length
    severe_earthquakes := (earthquakes.features.filter
        (fun f => decide (6.0 ≤ getNumD f.properties "mag" 0))).length
    total_wildfires := wildfires.features.length
    active_weather_alerts := weather_alerts.features.length
    last_updated := now
    avg_earthquake_magnitude :=
      if mags = [] then 0 else mags.sum / (mags.length : ℚ) }

/-- `DisasterDataService.get_disaster_statistics`: the `try` body fetches
the three collections and derives the statistics dict; any exception in
it is caught and the empty dict `{}` (here `none`) is returned.  The
`fetched` parameter is the outcome of the three in-body fetches. -/
def get_disaster_statistics (country : Country) (now : ℚ)
    (fetched : Except String
      (FeatureCollection × FeatureCollection × FeatureCollection)) :
    Option Statistics :=
  match fetched with
  | .error _ => none
  | .ok (earthquakes, wildfires, weather_alerts) =>
    some (computeStatistics country now earthquakes wildfires weather_alerts)

/-- Invariant used to reason about repeated in-place stamping: the key is
present in the mapping and every binding of it carries exactly the value
`v`. -/
def keyStamped (p : Props) (k : String) (v : Value) : Prop :=
  (∃ e ∈ p, e.1 = k) ∧ ∀ e ∈ p, e.1 = k → e = (k, v)

/-- Sample collection used to instantiate the universally quantified
theorems: one point inside the UAE box, one point outside every bounding
box, and one feature with a single coordinate value. -/
def sampleFC : FeatureCollection :=
  { type_ := "FeatureCollection"
    features :=
      [ { type_ := "Feature"
          geometry := pointGeom 55.0 24.0
          properties := [("mag", .num 6.2), ("depth", .num 50)] }
      , { type_ := "Feature"
          geometry := pointGeom 10.0 10.0
          properties := [("mag", .num 3.0)] }
      , { type_ := "Feature"
          geometry := { type_ := "Point", coordinates := [5.0] }
          properties := [] } ] }

/-- Seismic collection with magnitudes `[5.0, 6.5, 7.2]`, the statistics
scenario of the specification. -/
def magScenarioFC : FeatureCollection :=
  { type_ := "FeatureCollection"
    features :=
      [ { type_ := "Feature"
          geometry := pointGeom 55.0 24.0
          properties := [("mag", .num 5.0)] }
      , { type_ := "Feature"
          geometry := pointGeom 55.1 24.1
          properties := [("mag", .num 6.5)] }
      , { type_ := "Feature"
          geometry := pointGeom 55.2 24.2
          properties := [("mag", .num 7.2)] } ] }

/-- A feature whose properties carry no `mag` binding at all. -/
def noMagFeature : Feature :=
  { type_ := "Feature"
    geometry := pointGeom 55.0 24.0
    properties := [("title", .str "untitled event")] }

/-- Seismic collection mixing a magnitude-6 event with a feature lacking
a magnitude, to exhibit how missing magnitudes enter the statistics. -/
def missingMagFC : FeatureCollection :=
  { type_ := "FeatureCollection"
    features :=
      [ { type_ := "Feature"
          geometry := pointGeom 55.0 24.0
          properties := [("mag", .num 6.0)] }
      , noMagFeature ] }

/-! ### Helper lemmas about property maps -/

lemma find?_map_setter (p : Props) (k : String) (v : Value)
    (h : p.any (fun e => decide (e.1 = k)) = true) :
    (p.map (fun e => if e.1 = k then (k, v) else e)).find?
      (fun e => decide (e.1 = k)) = some (k, v) := by
  induction p with
  | nil => simp at h
  | cons e t ih =>
    by_cases he : e.1 = k
    · simp [List.map_cons, he, List.find?_cons]
    · have ht : t.any (fun e => decide (e.1 = k)) = true := by
        simpa [List.any_cons, he] using h
      simpa [List.map_cons, he, List.find?_cons] using ih ht

lemma find?_append_absent (p : Props) (k : String) (v : Value)
    (h : p.any (fun e => decide (e.1 = k)) = false) :
    ((p ++ [(k, v)]).find? (fun e => decide (e.1 = k))) = some (k, v) := by
  induction p with
  | nil => simp
  | cons e t ih =>
    have he : ¬(e.1 = k) := by
      intro hek
      simp [List.any_cons, hek] at h
    have ht : t.any (fun e => decide (e.1 = k)) = false := by
      simpa [List.any_cons, he] using h
    simpa [List.find?_cons, he] using ih ht

lemma lookupProp_setProp_self (p : Props) (k : String) (v : Value) :
    lookupProp (setProp p k v) k = some v := by
  unfold setProp lookupProp
  by_cases h : p.any (fun e => decide (e.1 = k)) = true
  · rw [if_pos h, find?_map_setter p k v h]
    rfl
  · rw [if_neg h, find?_append_absent p k v (Bool.not_eq_true _ ▸ h)]
    rfl

lemma find?_map_setter_ne (p : Props) (k' : String) (v' : Value)
    (k : String) (h : ¬(k' = k)) :
    (p.map (fun e => if e.1 = k' then (k', v') else e)).find?
      (fun e => decide (e.1 = k)) = p.find? (fun e => decide (e.1 = k)) := by
  induction p with
  | nil => rfl
  | cons e t ih =>
    rw [List.map_cons, List.find?_cons, List.find?_cons]
    by_cases he : e.1 = k'
    · have hek : ¬(e.1 = k) := by
        rw [he]; exact h
      rw [if_pos he]
      simp only [decide_eq_false h, decide_eq_false hek]
      exact ih
    · rw [if_neg he]
      by_cases hek : e.1 = k
      · simp only [decide_eq_true hek]
      · simp only [decide_eq_false hek]
        exact ih

lemma lookupProp_setProp_ne (p : Props) (k' : String) (v' : Value)
    (k : String) (h : ¬(k' = k)) :
    lookupProp (setProp p k' v') k = lookupProp p k := by
  unfold setProp lookupProp
  by_cases hp : p.any (fun e => decide (e.1 = k')) = true
  · rw [if_pos hp, find?_map_setter_ne p k' v' k h]
  · rw [if_neg hp, List.find?_append]
    have : ([(k', v')].find? (fun e => decide (e.1 = k))) = none := by
      simp [List.find?_cons, h]
    rw [this]
    cases p.find? (fun e => decide (e.1 = k)) <;> rfl

lemma keyStamped_setProp_self (p : Props) (k : String) (v : Value) :
    keyStamped (setProp p k v) k v := by
  unfold setProp keyStamped
  by_cases h : p.any (fun e => decide (e.1 = k)) = true
  · rw [if_pos h]
    obtain ⟨e0, he0, hk0b⟩ := List.any_eq_true.mp h
    have hk0 : e0.1 = k := of_decide_eq_true hk0b
    constructor
    · exact ⟨(k, v), List.mem_map.mpr ⟨e0, he0, by rw [if_pos hk0]⟩, rfl⟩
    · intro e he
      obtain ⟨a, _, rfl⟩ := List.mem_map.mp he
      by_cases ha : a.1 = k
      · rw [if_pos ha]
        exact fun _ => rfl
      · rw [if_neg ha]
        exact fun hcontra => absurd hcontra ha
  · rw [if_neg h]
    constructor
    · exact ⟨(k, v), List.mem_append.mpr (Or.inr (List.mem_singleton.mpr rfl)),
        rfl⟩
    · intro e he hk
      rcases List.mem_append.mp he with hmem | hmem
      · exact absurd (List.any_eq_true.mpr ⟨e, hmem, decide_eq_true hk⟩) h
      · exact List.mem_singleton.mp hmem

lemma keyStamped_setProp_ne (p : Props) (k : String) (v : Value)
    (k' : String) (v' : Value) (hne : ¬(k' = k))
    (h : keyStamped p k v) : keyStamped (setProp p k' v') k v := by
  obtain ⟨⟨e0, he0, hk0⟩, hall⟩ := h
  unfold setProp keyStamped
  by_cases hp : p.any (fun e => decide (e.1 = k')) = true
  · rw [if_pos hp]
    constructor
    · refine ⟨e0, List.mem_map.mpr ⟨e0, he0, ?_⟩, hk0⟩
      have hne0 : ¬(e0.1 = k') := by
        rw [hk0]; intro hkk; exact hne hkk.symm
      rw [if_neg hne0]
    · intro e he
      obtain ⟨a, ha, rfl⟩ := List.mem_map.mp he
      by_cases hak : a.1 = k'
      · rw [if_pos hak]
        exact fun hk => absurd hk hne
      · rw [if_neg hak]
        exact fun hk => hall a ha hk
  · rw [if_neg hp]
    constructor
    · exact ⟨e0, List.mem_append.mpr (Or.inl he0), hk0⟩
    · intro e he hk
      rcases List.mem_append.mp he with hmem | hmem
      · exact hall e hmem hk
      · rw [List.mem_singleton.mp hmem] at hk
        exact absurd hk hne

lemma setProp_eq_self (p : Props) (k : String) (v : Value)
    (h : keyStamped p k v) : setProp p k v = p := by
  obtain ⟨⟨e0, he0, hk0⟩, hall⟩ := h
  unfold setProp
  rw [if_pos (List.any_eq_true.mpr ⟨e0, he0, by simp [hk0]⟩)]
  conv_rhs => rw [← List.map_id p]
  apply List.map_congr_left
  intro a ha
  by_cases hak : a.1 = k
  · simp [hak, (hall a ha hak).symm]
  · simp [hak]

lemma stampFeature_geometry (b : CountryBounds) (f : Feature) :
    (stampFeature b f).geometry = f.geometry := rfl

lemma stampFeature_idem (b : CountryBounds) (f : Feature) :
    stampFeature b (stampFeature b f) = stampFeature b f := by
  have h1 : keyStamped (stampFeature b f).properties "country" (.str b.name) :=
    keyStamped_setProp_ne _ _ _ _ _ (by decide)
      (keyStamped_setProp_self f.properties "country" (.str b.name))
  have h2 : keyStamped (stampFeature b f).properties "country_code"
      (.str b.code) :=
    keyStamped_setProp_self _ "country_code" (.str b.code)
  show ({ stampFeature b f with
      properties := setProp (setProp (stampFeature b f).properties "country"
        (.str b.name)) "country_code" (.str b.code) } : Feature) =
    stampFeature b f
  rw [setProp_eq_self _ _ _ h1, setProp_eq_self _ _ _ h2]

lemma withinBounds_stamp (b : CountryBounds) (f : Feature) :
    withinBounds b (stampFeature b f) = withinBounds b f := rfl

/-! ### Structure of the country filter -/

lemma foldl_filterStep (b : CountryBounds) (l : List Feature) :
    ∀ acc : List Feature,
      l.foldl (filterStep b) acc = acc ++ l.filterMap (keepFeature b) := by
  induction l with
  | nil => intro acc; simp
  | cons f t ih =>
    intro acc
    rw [List.foldl_cons, ih, List.filterMap_cons]
    unfold filterStep keepFeature
    by_cases h1 : 2 ≤ f.geometry.coordinates.length
    · by_cases h2 : withinBounds b f = true
      · simp [h1, h2, List.append_assoc]
      · simp [h1, h2]
    · simp [h1]

lemma keepFeature_eq_ite (b : CountryBounds) (f : Feature) :
    keepFeature b f =
      if (decide (2 ≤ f.geometry.coordinates.length) && withinBounds b f) =
          true then
        some (stampFeature b f)
      else none := by
  unfold keepFeature
  by_cases h1 : 2 ≤ f.geometry.coordinates.length
  · by_cases h2 : withinBounds b f = true <;> simp [h1, h2]
  · simp [h1]

lemma filterMap_keepFeature_eq (b : CountryBounds) (l : List Feature) :
    l.filterMap (keepFeature b) =
      (l.filter (fun f => decide (2 ≤ f.geometry.coordinates.length) &&
        withinBounds b f)).map (stampFeature b) := by
  induction l with
  | nil => rfl
  | cons f t ih =>
    rw [List.filterMap_cons, List.filter_cons, keepFeature_eq_ite]
    by_cases hc : (decide (2 ≤ f.geometry.coordinates.length) &&
        withinBounds b f) = true
    · simp [hc, ih]
    · simp [hc, ih]

lemma keepFeature_stamped (b : CountryBounds) (f g : Feature)
    (h : keepFeature b f = some g) : keepFeature b g = some g := by
  unfold keepFeature at h
  by_cases h1 : 2 ≤ f.geometry.coordinates.length
  · by_cases h2 : withinBounds b f = true
    · rw [if_pos h1, if_pos h2] at h
      obtain rfl : stampFeature b f = g := Option.some.inj h
      unfold keepFeature
      rw [stampFeature_geometry, if_pos h1, withinBounds_stamp, if_pos h2,
        stampFeature_idem]
    · rw [if_pos h1, if_neg (by simpa using h2)] at h
      exact absurd h (by simp)
  · rw [if_neg h1] at h
    exact absurd h (by simp)

lemma filterMap_keepFeature_idem (b : CountryBounds) (l : List Feature) :
    (l.filterMap (keepFeature b)).filterMap (keepFeature b) =
      l.filterMap (keepFeature b) := by
  induction l with
  | nil => rfl
  | cons f t ih =>
    rw [List.filterMap_cons]
    cases h : keepFeature b f with
    | none => simpa using ih
    | some g =>
      rw [List.filterMap_cons, keepFeature_stamped b f g h, ih]

/-! ### Lookups on enriched properties -/

lemma lookupProp_addFormattedTime (fmt : ℚ → String) (p : Props)
    (k : String) (hk : ¬("formatted_time" = k)) :
    lookupProp (addFormattedTime fmt p) k = lookupProp p k := by
  unfold addFormattedTime
  cases h : lookupProp p "time" with
  | none => rfl
  | some v =>
    cases v with
    | str s => rfl
    | listStr l => rfl
    | num t =>
      dsimp only
      by_cases ht : t ≠ 0
      · rw [if_pos ht, lookupProp_setProp_ne p "formatted_time" _ k hk]
      · rw [if_neg ht]

lemma processFeature_props (fmt : ℚ → String) (f : Feature) :
    lookupProp (processFeature fmt f).properties "severity" =
      some (.str (severityColor (getNumD f.properties "mag" 0)).1) ∧
    lookupProp (processFeature fmt f).properties "color" =
      some (.str (severityColor (getNumD f.properties "mag" 0)).2) ∧
    lookupProp (processFeature fmt f).properties "risk_level" =
      some (.str (calculate_risk_level (getNumD f.properties "mag" 0)
        (getNumD f.properties "depth" 0))) := by
  dsimp only [processFeature]
  refine ⟨?_, ?_, ?_⟩
  · rw [lookupProp_addFormattedTime _ _ _ (by decide),
      lookupProp_setProp_ne _ _ _ _ (by decide),
      lookupProp_setProp_ne _ _ _ _ (by decide),
      lookupProp_setProp_self]
  · rw [lookupProp_addFormattedTime _ _ _ (by decide),
      lookupProp_setProp_ne _ _ _ _ (by decide),
      lookupProp_setProp_self]
  · rw [lookupProp_addFormattedTime _ _ _ (by decide),
      lookupProp_setProp_self]

/-! ### Closed form of the country filter -/

lemma filter_by_country_eq (c : FeatureCollection) (r : Country)
    (b : CountryBounds) (hb : COUNTRY_BOUNDS r = some b)
    (hr : ¬(r = Country.all)) :
    filter_by_country c r =
      { type_ := "FeatureCollection"
        features := c.features.filterMap (keepFeature b)
        metadata := some
          { country := b.name
            country_code := b.code
            total_filtered := (c.features.filterMap (keepFeature b)).length } } := by
  unfold filter_by_country
  rw [if_neg hr, hb]
  dsimp only
  rw [foldl_filterStep, List.nil_append]

/-! ### Claim theorems -/

/-- C1: for every feature collection `c` and region `r` that is not "all"
and is known to the registry, `filter_by_country c r` is exactly the
collection described by the claim: the features of `c` with at least two
coordinate values whose latitude lies in `[min_lat, max_lat]` and
longitude in `[min_lon, max_lon]` (inclusive), in source order, stamped
with the region's name and code, with metadata recording region name,
code and retained count; features with fewer than two coordinates are
skipped. -/
theorem filter_by_country_matches_claim (c : FeatureCollection)
    (r : Country) (b : CountryBounds) (h : COUNTRY_BOUNDS r = some b) :
    filter_by_country c r = filterByRegionClaim c b := by
  have hr : ¬(r = Country.all) := by
    intro e
    rw [e] at h
    exact Option.noConfusion h
  rw [filter_by_country_eq c r b h hr]
  unfold filterByRegionClaim
  dsimp only
  rw [filterMap_keepFeature_eq]

/-- Witness for C1 at the sample collection and the UAE region. -/
theorem filter_by_country_matches_claim_witness :
    COUNTRY_BOUNDS Country.uae = some uaeBounds ∧
    filter_by_country sampleFC Country.uae =
      filterByRegionClaim sampleFC uaeBounds :=
  ⟨rfl, filter_by_country_matches_claim sampleFC Country.uae uaeBounds rfl⟩

/-- C7: for every collection `c` and region `r ≠ "all"`, filtering by `r`
twice gives the same collection as filtering once (the filtered
collection is a fixed point of the filter). -/
theorem filter_by_country_idempotent (c : FeatureCollection) (r : Country)
    (h : r ≠ Country.all) :
    filter_by_country (filter_by_country c r) r = filter_by_country c r := by
  obtain ⟨b, hb⟩ : ∃ b, COUNTRY_BOUNDS r = some b := by
    cases r with
    | all => exact absurd rfl h
    | uae => exact ⟨uaeBounds, rfl⟩
    | canada => exact ⟨canadaBounds, rfl⟩
  rw [filter_by_country_eq c r b hb h, filter_by_country_eq _ r b hb h]
  simp only [filterMap_keepFeature_idem]

/-- Witness for C7 at the sample collection and the UAE region. -/
theorem filter_by_country_idempotent_witness :
    Country.uae ≠ Country.all ∧
    filter_by_country (filter_by_country sampleFC Country.uae) Country.uae =
      filter_by_country sampleFC Country.uae :=
  ⟨by decide, filter_by_country_idempotent sampleFC Country.uae (by decide)⟩

/-- Counterexample to C9 as stated: filtering the sample collection by
the UAE region changes the input collection object — the retained
feature's attribute mapping gains the `country` and `country_code` keys
in place, so the input is not left unchanged. -/
theorem filter_by_country_mutates_input :
    filter_by_country_inputAfter sampleFC Country.uae ≠ sampleFC :=
  of_decide_eq_false (by with_unfolding_all rfl)

/-- C9 (amended): the filter never replaces the input's feature sequence
(the collection keeps its type, metadata, feature count and order, and
every feature keeps its geometry, type and id; skipped features are
untouched), but each retained feature's attribute mapping is stamped in
place with the region's name and code; with region "all" nothing at all
is touched. -/
theorem filter_input_mutation_shape (c : FeatureCollection) (r : Country)
    (b : CountryBounds) :
    filter_by_country_inputAfter c Country.all = c ∧
    (COUNTRY_BOUNDS r = some b →
      filter_by_country_inputAfter c r =
        { c with features :=
            c.features.map (fun f => (keepFeature b f).getD f) } ∧
      (∀ f : Feature, ((keepFeature b f).getD f).geometry = f.geometry ∧
        ((keepFeature b f).getD f).type_ = f.type_ ∧
        ((keepFeature b f).getD f).id = f.id) ∧
      (∀ f : Feature, keepFeature b f = none → (keepFeature b f).getD f = f) ∧
      (∀ f g : Feature, keepFeature b f = some g → g = stampFeature b f)) := by
  constructor
  · unfold filter_by_country_inputAfter
    rw [if_pos rfl]
  · intro hb
    have hr : ¬(r = Country.all) := by
      intro e
      rw [e] at hb
      exact Option.noConfusion hb
    refine ⟨?_, ?_, ?_, ?_⟩
    · unfold filter_by_country_inputAfter
      rw [if_neg hr, hb]
      dsimp only
      congr 1
      apply List.map_congr_left
      intro f _
      unfold keepFeature
      by_cases h1 : 2 ≤ f.geometry.coordinates.length
      · by_cases h2 : withinBounds b f = true
        · rw [if_pos h1, if_pos h2, if_pos h1, if_pos h2]
          rfl
        · rw [if_pos h1, if_neg h2, if_pos h1, if_neg h2]
          rfl
      · rw [if_neg h1, if_neg h1]
        rfl
    · intro f
      unfold keepFeature
      by_cases h1 : 2 ≤ f.geometry.coordinates.length
      · by_cases h2 : withinBounds b f = true
        · rw [if_pos h1, if_pos h2]
          exact ⟨rfl, rfl, rfl⟩
        · rw [if_pos h1, if_neg h2]
          exact ⟨rfl, rfl, rfl⟩
      · rw [if_neg h1]
        exact ⟨rfl, rfl, rfl⟩
    · intro f hnone
      rw [hnone]
      rfl
    · intro f g hsome
      unfold keepFeature at hsome
      by_cases h1 : 2 ≤ f.geometry.coordinates.length
      · by_cases h2 : withinBounds b f = true
        · rw [if_pos h1, if_pos h2] at hsome
          exact (Option.some.inj hsome).symm
        · rw [if_pos h1, if_neg h2] at hsome
          exact absurd hsome (by simp)
      · rw [if_neg h1] at hsome
        exact absurd hsome (by simp)

/-- Witness for C9's amended statement at the sample collection and the
UAE region. -/
theorem filter_input_mutation_shape_witness :
    filter_by_country_inputAfter sampleFC Country.uae =
      { sampleFC with features :=
          sampleFC.features.map (fun f => (keepFeature uaeBounds f).getD f) } :=
  ((filter_input_mutation_shape sampleFC Country.uae uaeBounds).2 rfl).1

/-- C2: the severity/color chain, the depth factor and the risk level of
the enrichment engine follow exactly the thresholds of the claim, all
inclusive at their lower bounds, and the enriched feature's `severity`,
`color` and `risk_level` properties carry those classifications of its
`mag` and `depth` readings (defaulting to `0`). -/
theorem enrichment_thresholds (m d : ℚ) (fmt : ℚ → String) (f : Feature) :
    (7.0 ≤ m → severityColor m = ("Extreme", "darkred")) ∧
    (6.0 ≤ m → m < 7.0 → severityColor m = ("Severe", "red")) ∧
    (5.0 ≤ m → m < 6.0 → severityColor m = ("Strong", "orange")) ∧
    (4.0 ≤ m → m < 5.0 → severityColor m = ("Moderate", "yellow")) ∧
    (m < 4.0 → severityColor m = ("Light", "green")) ∧
    (d < 70 → depth_factor d = 1.0) ∧
    (70 ≤ d → d < 300 → depth_factor d = 0.8) ∧
    (300 ≤ d → depth_factor d = 0.6) ∧
    (6.5 ≤ m * depth_factor d → calculate_risk_level m d = "Critical") ∧
    (5.5 ≤ m * depth_factor d → m * depth_factor d < 6.5 →
      calculate_risk_level m d = "High") ∧
    (4.0 ≤ m * depth_factor d → m * depth_factor d < 5.5 →
      calculate_risk_level m d = "Medium") ∧
    (m * depth_factor d < 4.0 → calculate_risk_level m d = "Low") ∧
    lookupProp (processFeature fmt f).properties "severity" =
      some (.str (severityColor (getNumD f.properties "mag" 0)).1) ∧
    lookupProp (processFeature fmt f).properties "color" =
      some (.str (severityColor (getNumD f.properties "mag" 0)).2) ∧
    lookupProp (processFeature fmt f).properties "risk_level" =
      some (.str (calculate_risk_level (getNumD f.properties "mag" 0)
        (getNumD f.properties "depth" 0))) := by
  obtain ⟨hsev, hcol, hrisk⟩ := processFeature_props fmt f
  refine ⟨?_, ?_, ?_, ?_, ?_, ?_, ?_, ?_, ?_, ?_, ?_, ?_, hsev, hcol, hrisk⟩
  · intro h7
    unfold severityColor
    rw [if_pos (by exact h7)]
  · intro h6 h7
    unfold severityColor
    rw [if_neg (by exact not_le.mpr h7), if_pos (by exact h6)]
  · intro h5 h6
    unfold severityColor
    rw [if_neg (by exact not_le.mpr (by linarith)),
      if_neg (by exact not_le.mpr h6), if_pos (by exact h5)]
  · intro h4 h5
    unfold severityColor
    rw [if_neg (by exact not_le.mpr (by linarith)),
      if_neg (by exact not_le.mpr (by linarith)),
      if_neg (by exact not_le.mpr h5), if_pos (by exact h4)]
  · intro h4
    unfold severityColor
    rw [if_neg (by exact not_le.mpr (by linarith)),
      if_neg (by exact not_le.mpr (by linarith)),
      if_neg (by exact not_le.mpr (by linarith)),
      if_neg (by exact not_le.mpr h4)]
  · intro h70
    unfold depth_factor
    rw [if_pos h70]
  · intro h70 h300
    unfold depth_factor
    rw [if_neg (by exact not_lt.mpr h70), if_pos h300]
  · intro h300
    unfold depth_factor
    rw [if_neg (by exact not_lt.mpr (by linarith)),
      if_neg (by exact not_lt.mpr h300)]
  · intro h
    unfold calculate_risk_level
    rw [if_pos (by exact h)]
  · intro h1 h2
    unfold calculate_risk_level
    rw [if_neg (by exact not_le.mpr h2), if_pos (by exact h1)]
  · intro h1 h2
    unfold calculate_risk_level
    rw [if_neg (by exact not_le.mpr (by linarith)),
      if_neg (by exact not_le.mpr h2), if_pos (by exact h1)]
  · intro h
    unfold calculate_risk_level
    rw [if_neg (by exact not_le.mpr (by linarith)),
      if_neg (by exact not_le.mpr (by linarith)),
      if_neg (by exact not_le.mpr h)]

/-- Witness for C2 at magnitude `6.2` and depth `50` (the specification's
own scenario: severity "Severe", risk score `6.2 × 1.0`, risk "High"). -/
theorem enrichment_thresholds_witness :
    severityColor 6.2 = ("Severe", "red") ∧
    depth_factor 50 = 1.0 ∧
    calculate_risk_level 6.2 50 = "High" := by
  have h := enrichment_thresholds 6.2 50 (fun _ => "") noMagFeature
  obtain ⟨_, h2, _, _, _, h6, _, _, _, h10, _⟩ := h
  exact ⟨h2 (of_decide_eq_true (by with_unfolding_all rfl))
      (of_decide_eq_true (by with_unfolding_all rfl)),
    h6 (of_decide_eq_true (by with_unfolding_all rfl)),
    h10 (of_decide_eq_true (by with_unfolding_all rfl))
      (of_decide_eq_true (by with_unfolding_all rfl))⟩

/-- C10: a seismic feature whose properties lack a `mag` binding is
treated as magnitude `0` everywhere: enrichment classifies it "Light"
(green) with risk level computed from magnitude `0` (hence "Low"), and
the statistics count its magnitude as `0` both in the severe (≥ 6.0)
test and in the arithmetic mean — shown concretely by a two-event
collection (one magnitude 6, one missing) whose average is `3`. -/
theorem missing_mag_defaults (p : Props) (fmt : ℚ → String) (f : Feature)
    (d : ℚ) (hp : lookupProp p "mag" = none)
    (hf : lookupProp f.properties "mag" = none) :
    getNumD p "mag" 0 = 0 ∧
    severityColor (getNumD p "mag" 0) = ("Light", "green") ∧
    calculate_risk_level (getNumD p "mag" 0) d = "Low" ∧
    lookupProp (processFeature fmt f).properties "severity" =
      some (.str "Light") ∧
    lookupProp (processFeature fmt f).properties "color" =
      some (.str "green") ∧
    lookupProp (processFeature fmt f).properties "risk_level" =
      some (.str "Low") ∧
    decide (6.0 ≤ getNumD p "mag" 0) = false ∧
    computeStatistics Country.all 0 missingMagFC emptyFC emptyFC =
      { country := "all", country_name := "Global", total_earthquakes := 2,
        severe_earthquakes := 1, total_wildfires := 0,
        active_weather_alerts := 0, last_updated := 0,
        avg_earthquake_magnitude := 3 } := by
  have h0 : getNumD p "mag" 0 = 0 := by
    unfold getNumD
    rw [hp]
  have hf0 : getNumD f.properties "mag" 0 = 0 := by
    unfold getNumD
    rw [hf]
  have hsc : severityColor 0 = ("Light", "green") := by
    unfold severityColor
    norm_num
  have hrl : ∀ dd : ℚ, calculate_risk_level 0 dd = "Low" := by
    intro dd
    unfold calculate_risk_level
    rw [zero_mul]
    norm_num
  obtain ⟨hsev, hcol, hrisk⟩ := processFeature_props fmt f
  refine ⟨h0, by rw [h0, hsc], by rw [h0, hrl], ?_, ?_, ?_, ?_, ?_⟩
  · rw [hsev, hf0, hsc]
  · rw [hcol, hf0, hsc]
  · rw [hrisk, hf0, hrl]
  · rw [h0]
    with_unfolding_all rfl
  · with_unfolding_all rfl

/-- Witness for C10 at the concrete magnitude-free feature. -/
theorem missing_mag_defaults_witness :
    getNumD noMagFeature.properties "mag" 0 = 0 ∧
    lookupProp (processFeature (fun _ => "") noMagFeature).properties
      "severity" = some (.str "Light") ∧
    lookupProp (processFeature (fun _ => "") noMagFeature).properties
      "risk_level" = some (.str "Low") := by
  have h := missing_mag_defaults noMagFeature.properties (fun _ => "")
    noMagFeature 0 rfl rfl
  exact ⟨h.1, h.2.2.2.1, h.2.2.2.2.2.1⟩

/-- C3: whenever the seismic fetch actually consults the upstream API
(its cache has no valid entry for the request's key) and that request
fails in any way, `get_earthquakes` returns the empty FeatureCollection
and leaves the cache untouched; being a total function, it raises
nothing to its caller. -/
theorem get_earthquakes_fail_soft (cache : Cache) (now : ℚ)
    (fmt : ℚ → String) (limit : ℕ) (min_magnitude : ℚ) (country : Country)
    (err : String)
    (h : is_cache_valid cache now
      (earthquakeCacheKey limit min_magnitude country) = false) :
    get_earthquakes cache now fmt limit min_magnitude country
      (.error err) = (emptyFC, cache) := by
  unfold get_earthquakes
  dsimp only
  rw [h]
  rfl

/-- Witness for C3 on an empty cache. -/
theorem get_earthquakes_fail_soft_witness :
    is_cache_valid [] 0 (earthquakeCacheKey 50 2.5 Country.all) = false ∧
    get_earthquakes [] 0 (fun _ => "") 50 2.5 Country.all
      (.error "connection timed out") = (emptyFC, []) :=
  ⟨rfl, get_earthquakes_fail_soft [] 0 (fun _ => "") 50 2.5 Country.all
    "connection timed out" rfl⟩

/-- C4: the combined `/all-disasters` response has an entry for every
selected category; a category whose fetcher raised maps to the empty
FeatureCollection, a category whose fetcher succeeded maps to its result
unchanged, and each entry is determined by that category's own result
alone, so one category's failure never removes or alters the others. -/
theorem all_disasters_partial_failure (country : Country)
    (include_earthquakes include_wildfires include_weather include_relief :
      Bool)
    (r_eq r_wf r_we r_rc : Except String FeatureCollection) (err : String) :
    (include_earthquakes = true →
      responseCategory (get_all_disasters country include_earthquakes
        include_wildfires include_weather include_relief r_eq r_wf r_we r_rc)
        "earthquakes" = some (resultOrEmpty r_eq)) ∧
    (include_wildfires = true →
      responseCategory (get_all_disasters country include_earthquakes
        include_wildfires include_weather include_relief r_eq r_wf r_we r_rc)
        "wildfires" = some (resultOrEmpty r_wf)) ∧
    (include_weather = true →
      responseCategory (get_all_disasters country include_earthquakes
        include_wildfires include_weather include_relief r_eq r_wf r_we r_rc)
        "weather_alerts" = some (resultOrEmpty r_we)) ∧
    (include_relief = true →
      responseCategory (get_all_disasters country include_earthquakes
        include_wildfires include_weather include_relief r_eq r_wf r_we r_rc)
        "relief_centers" = some (resultOrEmpty r_rc)) ∧
    resultOrEmpty (Except.error err) = emptyFC ∧
    (∀ fc : FeatureCollection, resultOrEmpty (Except.ok fc) = fc) := by
  refine ⟨fun h => ?_, fun h => ?_, fun h => ?_, fun h => ?_, rfl,
    fun fc => rfl⟩
  · subst h
    rfl
  · subst h
    cases include_earthquakes <;> rfl
  · subst h
    cases include_earthquakes <;> cases include_wildfires <;> rfl
  · subst h
    cases include_earthquakes <;> cases include_wildfires <;>
      cases include_weather <;> rfl

/-- Witness for C4: with the wildfire fetcher failing and the others
succeeding, every selected category is present and only the failed one
is empty. -/
theorem all_disasters_partial_failure_witness :
    responseCategory (get_all_disasters Country.all true true true true
      (.ok magScenarioFC) (.error "boom") (.ok emptyFC) (.ok emptyFC))
      "earthquakes" = some magScenarioFC ∧
    responseCategory (get_all_disasters Country.all true true true true
      (.ok magScenarioFC) (.error "boom") (.ok emptyFC) (.ok emptyFC))
      "wildfires" = some emptyFC := by
  have h := all_disasters_partial_failure Country.all true true true true
    (.ok magScenarioFC) (.error "boom") (.ok emptyFC) (.ok emptyFC) "boom"
  exact ⟨h.1 rfl, h.2.1 rfl⟩

/-- C5: the statistics report the total seismic count, the count of
events with magnitude ≥ 6.0, the wildfire and weather-alert totals, and
the arithmetic mean of the magnitudes with `0` for an empty event list;
on the specification's scenario `[5.0, 6.5, 7.2]` the mean is `187/30 =
6.2333…` and the severe count is `2`; an internal error yields the empty
statistics object instead of propagating. -/
theorem statistics_spec (country : Country) (now : ℚ)
    (e w a : FeatureCollection) (err : String) :
    (computeStatistics country now e w a).total_earthquakes =
      e.features.length ∧
    (computeStatistics country now e w a).severe_earthquakes =
      (e.features.filter
        (fun f => decide (6.0 ≤ getNumD f.properties "mag" 0))).length ∧
    (computeStatistics country now e w a).total_wildfires =
      w.features.length ∧
    (computeStatistics country now e w a).active_weather_alerts =
      a.features.length ∧
    (e.features = [] →
      (computeStatistics country now e w a).avg_earthquake_magnitude = 0) ∧
    (e.features ≠ [] →
      (computeStatistics country now e w a).avg_earthquake_magnitude =
        (e.features.map (fun f => getNumD f.properties "mag" 0)).sum /
          (e.features.length : ℚ)) ∧
    get_disaster_statistics country now (Except.error err) = none ∧
    (computeStatistics country now magScenarioFC emptyFC
      emptyFC).avg_earthquake_magnitude = 187 / 30 ∧
    (computeStatistics country now magScenarioFC emptyFC
      emptyFC).severe_earthquakes = 2 := by
  refine ⟨rfl, rfl, rfl, rfl, ?_, ?_, rfl, ?_, ?_⟩
  · intro h
    unfold computeStatistics
    dsimp only
    rw [h]
    rfl
  · intro h
    unfold computeStatistics
    dsimp only
    rw [if_neg (by simpa [List.map_eq_nil_iff] using h), List.length_map]
  · with_unfolding_all rfl
  · with_unfolding_all rfl

/-- Witness for C5 at the scenario collection and a failing fetch. -/
theorem statistics_spec_witness :
    (computeStatistics Country.all 0 magScenarioFC emptyFC
      emptyFC).avg_earthquake_magnitude =
      (magScenarioFC.features.map (fun f => getNumD f.properties "mag" 0)).sum /
        (magScenarioFC.features.length : ℚ) ∧
    get_disaster_statistics Country.all 0 (Except.error "boom") = none := by
  have h := statistics_spec Country.all 0 magScenarioFC emptyFC emptyFC "boom"
  exact ⟨h.2.2.2.2.2.1 (by simp [magScenarioFC]), h.2.2.2.2.2.2.1⟩

/-- C6: immediately after a put, a get with the same key returns exactly
the stored value; the validity check holds iff an entry exists and its
age is strictly less than the 5-minute cache duration, so once 5 minutes
or more have elapsed since the put, validity is false. -/
theorem cache_validity_spec (c : Cache) (k : String) (v : FeatureCollection)
    (t now : ℚ) :
    cacheGet (cachePut c k v t) k = some { data := v, timestamp := t } ∧
    (now - t < cache_duration →
      is_cache_valid (cachePut c k v t) now k = true) ∧
    (is_cache_valid c now k = true ↔
      ∃ e, cacheGet c k = some e ∧ now - e.timestamp < cache_duration) ∧
    (cache_duration ≤ now - t →
      is_cache_valid (cachePut c k v t) now k = false) := by
  have hget : cacheGet (cachePut c k v t) k =
      some { data := v, timestamp := t } := by
    unfold cacheGet cachePut
    rw [List.find?_cons]
    simp
  refine ⟨hget, ?_, ?_, ?_⟩
  · intro h
    unfold is_cache_valid
    rw [hget]
    simpa using h
  · unfold is_cache_valid
    cases hc : cacheGet c k with
    | none => simp
    | some e => simp
  · intro h
    unfold is_cache_valid
    rw [hget]
    simpa using not_lt.mpr h

/-- Witness for C6: put at time `0`, read back at `1` (inside the
window) and check validity at `6` (outside the window). -/
theorem cache_validity_spec_witness :
    cacheGet (cachePut [] "k" emptyFC 0) "k" =
      some { data := emptyFC, timestamp := 0 } ∧
    is_cache_valid (cachePut [] "k" emptyFC 0) 1 "k" = true ∧
    is_cache_valid (cachePut [] "k" emptyFC 0) 6 "k" = false := by
  have h1 := cache_validity_spec [] "k" emptyFC 0 1
  have h6 := cache_validity_spec [] "k" emptyFC 0 6
  exact ⟨h1.1, h1.2.1 (by norm_num [cache_duration]),
    h6.2.2.2 (by norm_num [cache_duration])⟩

/-- Counterexample to C8 as stated: the relief-center fetch neither
consults nor populates the cache — starting from an empty cache it
produces a non-empty fresh result, yet the cache afterwards is still
empty, so the fresh result was not stored before returning. -/
theorem relief_centers_bypass_cache :
    (get_relief_centers [] 0 Country.all).2 = ([] : Cache) ∧
    (get_relief_centers [] 0 Country.all).1.features ≠ [] :=
  ⟨rfl, of_decide_eq_false (by with_unfolding_all rfl)⟩

/-- C8 (amended): the seismic, wildfire and weather-alert fetchers first
consult the cache and return the cached value on a valid hit; on a miss
the wildfire and weather-alert fetchers — and the seismic fetcher when
its upstream request succeeds — store the fresh result under the
request's key before returning, while the seismic fetcher on upstream
failure returns the empty collection without caching; the relief-center
fetcher neither consults nor updates the cache and recomputes its result
on every call. -/
theorem fetch_cache_discipline (cache : Cache) (now : ℚ)
    (fmt : ℚ → String) (limit : ℕ) (min_magnitude : ℚ) (country : Country)
    (data : FeatureCollection) (err : String) :
    (is_cache_valid cache now ("wildfires_" ++ country.value) = true →
      get_wildfires cache now country =
        (cacheDataD cache ("wildfires_" ++ country.value), cache)) ∧
    (is_cache_valid cache now ("wildfires_" ++ country.value) = false →
      cacheGet (get_wildfires cache now country).2
          ("wildfires_" ++ country.value) =
        some { data := (get_wildfires cache now country).1,
               timestamp := now }) ∧
    (is_cache_valid cache now ("weather_alerts_" ++ country.value) = true →
      get_weather_alerts cache now country =
        (cacheDataD cache ("weather_alerts_" ++ country.value), cache)) ∧
    (is_cache_valid cache now ("weather_alerts_" ++ country.value) = false →
      cacheGet (get_weather_alerts cache now country).2
          ("weather_alerts_" ++ country.value) =
        some { data := (get_weather_alerts cache now country).1,
               timestamp := now }) ∧
    (is_cache_valid cache now
        (earthquakeCacheKey limit min_magnitude country) = true →
      get_earthquakes cache now fmt limit min_magnitude country (.ok data) =
        (cacheDataD cache (earthquakeCacheKey limit min_magnitude country),
          cache)) ∧
    (is_cache_valid cache now
        (earthquakeCacheKey limit min_magnitude country) = false →
      cacheGet (get_earthquakes cache now fmt limit min_magnitude country
            (.ok data)).2
          (earthquakeCacheKey limit min_magnitude country) =
        some { data := (get_earthquakes cache now fmt limit min_magnitude
                 country (.ok data)).1,
               timestamp := now }) ∧
    (is_cache_valid cache now
        (earthquakeCacheKey limit min_magnitude country) = false →
      get_earthquakes cache now fmt limit min_magnitude country
        (.error err) = (emptyFC, cache)) ∧
    ((get_relief_centers cache now country).2 = cache) ∧
    (∀ cache2 : Cache, (get_relief_centers cache2 now country).1 =
      (get_relief_centers cache now country).1) := by
  refine ⟨?_, ?_, ?_, ?_, ?_, ?_, ?_, rfl, fun cache2 => rfl⟩
  · intro h
    unfold get_wildfires
    dsimp only
    rw [h]
    rfl
  · intro h
    unfold get_wildfires
    dsimp only
    rw [h, if_neg (by simp)]
    dsimp only
    unfold cacheGet cachePut
    rw [List.find?_cons]
    simp
  · intro h
    unfold get_weather_alerts
    dsimp only
    rw [h]
    rfl
  · intro h
    unfold get_weather_alerts
    dsimp only
    rw [h, if_neg (by simp)]
    dsimp only
    unfold cacheGet cachePut
    rw [List.find?_cons]
    simp
  · intro h
    unfold get_earthquakes
    dsimp only
    rw [h]
    rfl
  · intro h
    unfold get_earthquakes
    dsimp only
    rw [h, if_neg (by simp)]
    unfold get_earthquakes_fetch
    dsimp only
    unfold cacheGet cachePut
    rw [List.find?_cons]
    simp
  · intro h
    unfold get_earthquakes
    dsimp only
    rw [h]
    rfl

/-- Witness for C8's amended statement: a wildfire miss on an empty
cache stores its result, and the relief-center fetch leaves the empty
cache empty. -/
theorem fetch_cache_discipline_witness :
    cacheGet (get_wildfires [] 0 Country.uae).2 "wildfires_uae" =
      some { data := (get_wildfires [] 0 Country.uae).1, timestamp := 0 } ∧
    (get_relief_centers [] 0 Country.uae).2 = ([] : Cache) := by
  have h := fetch_cache_discipline [] 0 (fun _ => "") 50 2.5 Country.uae
    emptyFC "boom"
  exact ⟨h.2.1 rfl, h.2.2.2.2.2.2.2.1⟩

end DisasterDashboard
